import Mathlib

/-!
Shallow embedding of the NeverSkipYourContent `page_analyzer` server
(`src/servers/page_analyzer/src/page_analyzer/`): the data model
(`analysis_types.py`), the routing and batch logic of
`analysis_manager.py`, and the scoring / normalization algorithms of
`analyzers/html_analyzer.py`, `analyzers/feed_analyzer.py` and
`analyzers/api_analyzer.py`.

Modelling conventions:
* Python floats are embedded as `ℚ` (the float literal `0.4` as
  `mkRat 4 10`); `datetime` values as integer timestamps measured in
  days, so that `(now - d).days` becomes `now - d : ℤ`.
* Fallible Python code (exceptions) is embedded as `Except String _`;
  an exception's text is the `String`.
* Network and markup-parsing capabilities (httpx, BeautifulSoup,
  feedparser) are external collaborators: their outcomes are passed in
  as explicit data (`FetchOutcome`, `Soup`, `ParsedFeed`, …).
-/

namespace PageAnalyzer

/-- The `ContentType` enum from `analysis_types.py`. -/
inductive ContentType
  | html | rss | atom | api | pdf | unknown
  deriving DecidableEq, Repr

/-- The `AnalysisStatus` enum from `analysis_types.py`.
The Python member `PARTIAL` is embedded as `incomplete` because
its Python name is a Lean keyword. -/
inductive AnalysisStatus
  | success | error | timeout | blocked | incomplete
  deriving DecidableEq, Repr

/-- The `PageAnalysis` pydantic model from `analysis_types.py`.
Optional datetimes are `Option ℤ` (timestamps in days); pydantic
defaults are carried as Lean field defaults. -/
structure PageAnalysis where
  url : String
  content_type : ContentType
  status : AnalysisStatus
  title : Option String := none
  description : Option String := none
  main_content : Option String := none
  summary : Option String := none
  language : Option String := none
  author : Option String := none
  published_date : Option ℤ := none
  last_modified : Option ℤ := none
  relevance_score : ℚ := 0
  quality_score : ℚ := 0
  freshness_score : ℚ := 0
  feeds_discovered : List String := []
  images : List String := []
  external_links : List String := []
  response_time : ℚ := 0
  content_length : ℤ := 0
  status_code : Option ℤ := none
  error_message : Option String := none
  analyzed_at : ℚ := 0
  processing_time : ℚ := 0
  deriving DecidableEq, Repr

/-- The `BatchAnalysisResponse` pydantic model from `analysis_types.py`. -/
structure BatchAnalysisResponse where
  total_requested : ℤ
  successful_analyses : ℤ
  failed_analyses : ℤ
  results : List PageAnalysis := []
  total_processing_time : ℚ := 0
  errors : List String := []
  deriving DecidableEq, Repr

/-- The `ApiAnalysis` pydantic model from `analysis_types.py` (the
`extracted_content` records are the normalized records produced by
`ApiAnalyzer._normalize_item`, see `NormalizedRecord` below). -/
structure ApiAnalysisFields where
  endpoint_url : String
  response_structure : String
  schema_detected : Option String := none
  total_records : ℤ := 0
  data_quality : ℚ := 0
  processing_time : ℚ := 0
  error_message : Option String := none
  deriving DecidableEq, Repr

/-! ### URL path extraction

`AnalysisManager._detect_content_type` lowercases the URL and takes
`urllib.parse.urlparse(url).path`.  We embed the part of `urlsplit`
that determines the path of an already-lowercased URL: cut the
fragment at the first `#`, strip a syntactically valid `scheme:`
prefix, strip a `//netloc` component (which extends to the next
`/`, `?` or `#`), and finally cut the query at the first `?`. -/

/-- ASCII lowercasing of one character.  Python's `str.lower()` also
lowercases non-ASCII letters, but every pattern compared against a
lowered string in `_detect_content_type` is pure ASCII. -/
def lowerChar (c : Char) : Char :=
  if 65 ≤ c.toNat ∧ c.toNat ≤ 90 then Char.ofNat (c.toNat + 32) else c

/-- Python `str.lower()` restricted to ASCII letters. -/
def strToLower (s : String) : String := ⟨s.data.map lowerChar⟩

/-- Characters allowed in a URL scheme after the leading letter
(`urllib.parse.scheme_chars`). -/
def isSchemeChar (c : Char) : Bool :=
  c.isAlpha || c.isDigit || c = '+' || c = '-' || c = '.'

/-- Everything before the first occurrence of `c`. -/
def cutAtChar (c : Char) (cs : List Char) : List Char :=
  cs.takeWhile (fun d => d ≠ c)

/-- Strip a leading `scheme:` as `urlsplit` does: the prefix before the
first `:` must be nonempty, start with a letter, and consist of scheme
characters only. -/
def dropScheme (cs : List Char) : List Char :=
  let pre := cs.takeWhile (fun d => d ≠ ':')
  if pre.length < cs.length ∧ pre ≠ [] ∧
      (pre.headD 'a').isAlpha ∧ pre.all isSchemeChar then
    cs.drop (pre.length + 1)
  else
    cs

/-- Strip a leading `//netloc`: the netloc extends to the next `/`,
`?` or `#` (`urllib.parse._splitnetloc`). -/
def dropNetloc : List Char → List Char
  | '/' :: '/' :: rest =>
      rest.dropWhile (fun c => c ≠ '/' ∧ c ≠ '?' ∧ c ≠ '#')
  | cs => cs

/-- The `path` component `urlparse` assigns to a URL. -/
def urlPath (url : String) : String :=
  ⟨cutAtChar '?' (dropNetloc (dropScheme (cutAtChar '#' url.data)))⟩

/-- Python's substring test `pat in s` on strings. -/
def strContains (s pat : String) : Bool :=
  s.data.tails.any (fun t => pat.data.isPrefixOf t)

/-- The feed URL patterns of `_detect_content_type`. -/
def feedPatterns : List String := ["/feed", "/rss", "/atom", ".rss", ".xml", ".atom"]

/-- The API URL patterns of `_detect_content_type`. -/
def apiPatterns : List String := ["/api/", "/v1/", "/v2/", "/json", ".json"]

/-- Embeds `AnalysisManager._detect_content_type` (`analysis_manager.py`,
lines 261–291).  A `some ""` hint is falsy in Python and hence
ignored, like `none`. -/
def detectContentType (url : String) (content_type_hint : Option String := none) :
    ContentType :=
  let hinted : Option ContentType :=
    match content_type_hint with
    | none => none
    | some h =>
        if h = "" then none
        else
          let hl := strToLower h
          if hl = "rss" then some ContentType.rss
          else if hl = "atom" then some ContentType.atom
          else if hl = "api" then some ContentType.api
          else if hl = "html" then some ContentType.html
          else none
  match hinted with
  | some t => t
  | none =>
      let path := urlPath (strToLower url)
      if feedPatterns.any (fun p => strContains path p) then
        if strContains path "atom" then ContentType.atom else ContentType.rss
      else if apiPatterns.any (fun p => strContains path p) then
        ContentType.api
      else
        ContentType.html

/-! ### Batch aggregation (`AnalysisManager.analyze_batch`)

`asyncio.gather(*tasks, return_exceptions=True)` yields, for each url
in order, either a raised exception (kept as its text) or the
`PageAnalysis` returned by `analyze_page`.  The aggregation loop of
`analyze_batch` (lines 111–139) is embedded over that outcome list. -/

/-- One gathered outcome of `_analyze_with_semaphore` for one URL. -/
inductive BatchOutcome
  | exc (msg : String)
  | analysis (a : PageAnalysis)
  deriving DecidableEq, Repr

/-- The result-processing loop of `analyze_batch`: walks the outcomes
(zipped with their URLs) in order, producing the `successful_analyses`
list, the `failed_analyses` url list and the `errors` list.  A failed
`PageAnalysis` adds an error string only under
`if result.error_message:` — a Python *truthiness* test, false both
for `None` and for the empty string. -/
def processResults : List (String × BatchOutcome) →
    List PageAnalysis × List String × List String
  | [] => ([], [], [])
  | (url, o) :: rest =>
      let (succ, failed, errs) := processResults rest
      match o with
      | BatchOutcome.exc msg =>
          (succ, url :: failed, (url ++ ": " ++ msg) :: errs)
      | BatchOutcome.analysis a =>
          if a.status = AnalysisStatus.success then
            (a :: succ, failed, errs)
          else
            (succ, a.url :: failed,
              (match a.error_message with
               | some m => if m ≠ "" then [a.url ++ ": " ++ m] else []
               | none => []) ++ errs)

/-- Embeds `AnalysisManager.analyze_batch` after the gather step: builds the
`BatchAnalysisResponse` from the per-URL outcomes
(`analysis_manager.py` lines 111–139). -/
def analyzeBatchResponse (outcomes : List (String × BatchOutcome))
    (totalTime : ℚ) : BatchAnalysisResponse :=
  let (succ, failed, errs) := processResults outcomes
  { total_requested := outcomes.length
    successful_analyses := succ.length
    failed_analyses := failed.length
    results := succ
    total_processing_time := totalTime
    errors := errs }

/-- Whether an outcome is an analysis with `status=success`. -/
def outcomeSuccessful : BatchOutcome → Bool
  | BatchOutcome.exc _ => false
  | BatchOutcome.analysis a => a.status = AnalysisStatus.success

/-! ### Server-level batch validation (`server.py`, `analyze_batch` tool) -/

/-- The reply of the `analyze_batch` MCP tool: either the validation
rejection dictionary `{"error": …}` or the converted batch response. -/
inductive BatchReply
  | rejection (msg : String)
  | response (r : BatchAnalysisResponse)
  deriving DecidableEq, Repr

/-- Input validation of the `analyze_batch` tool (`server.py`
lines 131–155): an empty list or more than 50 URLs short-circuits to
an error dictionary; otherwise the manager's batch analysis
(abstracted as `delegate`) runs. -/
def serverAnalyzeBatch (urls : List String)
    (delegate : List String → BatchAnalysisResponse) : BatchReply :=
  if urls = [] then BatchReply.rejection "No URLs provided"
  else if urls.length > 50 then
    BatchReply.rejection "Too many URLs. Maximum is 50."
  else BatchReply.response (delegate urls)

/-- Success projection of one outcome (the analyses that land in
`results`). -/
def outcomeResult (p : String × BatchOutcome) : Option PageAnalysis :=
  match p.2 with
  | BatchOutcome.exc _ => none
  | BatchOutcome.analysis a =>
      if a.status = AnalysisStatus.success then some a else none

/-- Failure projection of one outcome (the url recorded in the
`failed_analyses` count): the input url for a raised exception, the
analysis' own url otherwise. -/
def outcomeFailedUrl (p : String × BatchOutcome) : Option String :=
  match p.2 with
  | BatchOutcome.exc _ => some p.1
  | BatchOutcome.analysis a =>
      if a.status = AnalysisStatus.success then none else some a.url

/-- Error-string projection of one outcome: a raised exception always
contributes `"<url>: <text>"`; a non-success analysis contributes
`"<url>: <error_message>"` only when `error_message` is truthy, i.e.
present *and* non-empty. -/
def outcomeError (p : String × BatchOutcome) : Option String :=
  match p.2 with
  | BatchOutcome.exc msg => some (p.1 ++ ": " ++ msg)
  | BatchOutcome.analysis a =>
      if a.status = AnalysisStatus.success then none
      else
        match a.error_message with
        | some m => if m ≠ "" then some (a.url ++ ": " ++ m) else none
        | none => none

/-- The aggregation loop is the triple of the three projections. -/
theorem processResults_eq (l : List (String × BatchOutcome)) :
    processResults l =
      (l.filterMap outcomeResult, l.filterMap outcomeFailedUrl,
        l.filterMap outcomeError) := by
  induction l with
  | nil => rfl
  | cons p rest ih =>
      obtain ⟨url, o⟩ := p
      cases o with
      | exc msg =>
          simp [processResults, ih, outcomeResult, outcomeFailedUrl,
            outcomeError, List.filterMap_cons]
      | analysis a =>
          by_cases h : a.status = AnalysisStatus.success
          · simp [processResults, ih, outcomeResult, outcomeFailedUrl,
              outcomeError, List.filterMap_cons, h]
          · cases hm : a.error_message with
            | none =>
                simp [processResults, ih, outcomeResult, outcomeFailedUrl,
                  outcomeError, List.filterMap_cons, h, hm]
            | some m =>
                by_cases hme : m = "" <;>
                  simp [processResults, ih, outcomeResult, outcomeFailedUrl,
                    outcomeError, List.filterMap_cons, h, hm, hme]

/-! ### HtmlAnalyzer (`analyzers/html_analyzer.py`)

The BeautifulSoup document is embedded as the facts the scoring code
queries of it (`Soup`); the httpx call of `_fetch_page` is embedded as
an explicit `FetchOutcome`. -/

/-- Python's `s.strip()` (ASCII whitespace). -/
def stripChars (cs : List Char) : List Char :=
  ((cs.dropWhile Char.isWhitespace).reverse.dropWhile Char.isWhitespace).reverse

/-- The sentence delimiters of `re.split(r'[.!?]+', …)`. -/
def isSentenceDelim (c : Char) : Bool :=
  c = '.' || c = '!' || c = '?'

/-- Python `re.split` on a one-or-more character-class pattern: split at each
maximal run of delimiter characters (fuel-driven recursion; the fuel
`cs.length + 1` always suffices because each step consumes at least
one character). -/
def splitRunsAux : Nat → (Char → Bool) → List Char → List (List Char)
  | 0, _, _ => []
  | fuel + 1, p, cs =>
      let first := cs.takeWhile (fun c => ! p c)
      let rest := cs.dropWhile (fun c => ! p c)
      match rest with
      | [] => [first]
      | _ => first :: splitRunsAux fuel p (rest.dropWhile p)

/-- Python `re.split(r'[.!?]+', s)`. -/
def splitSentences (s : String) : List (List Char) :=
  splitRunsAux (s.data.length + 1) isSentenceDelim s.data

/-- Python `len([s for s in re.split(r'[.!?]+', content) if len(s.strip()) > 20])`. -/
def meaningfulSentenceCount (content : String) : Nat :=
  ((splitSentences content).filter
    (fun s => decide ((stripChars s).length > 20))).length

/-- Python truthiness-guarded length test `o and len(o) > n`. -/
def optLenGT (o : Option String) (n : Nat) : Bool :=
  match o with
  | some s => s.length > n
  | none => false

/-- Embeds `HtmlAnalyzer._calculate_relevance_score` (lines 311–340). -/
def calculateRelevanceScore (calculate_scores : Bool)
    (content title description : Option String) : ℚ :=
  if ! calculate_scores then 0
  else
    let score : ℚ := 0
    let score := score + (if optLenGT title 10 then mkRat 2 10 else 0)
    let score := score + (if optLenGT description 20 then mkRat 2 10 else 0)
    let score :=
      match content with
      | none => score
      | some c =>
          if c = "" then score
          else
            let score := score +
              (if c.length ≥ 500 then mkRat 4 10
               else if c.length ≥ 200 then mkRat 2 10 else 0)
            score + (if meaningfulSentenceCount c ≥ 3 then mkRat 2 10 else 0)
    min score 1

/-- The facts `_calculate_quality_score` queries of the parsed page. -/
structure Soup where
  hasMainOrArticle : Bool
  hasHeading : Bool
  hasListTag : Bool
  hasImgWithAlt : Bool
  htmlLength : ℕ
  deriving DecidableEq, Repr

/-- Embeds `HtmlAnalyzer._calculate_quality_score` (lines 342–373). -/
def calculateQualityScore (calculate_scores : Bool)
    (content : Option String) (soup : Soup) : ℚ :=
  if ! calculate_scores then 0
  else
    let score : ℚ := 0
    let score := score + (if soup.hasMainOrArticle then mkRat 2 10 else 0)
    let score := score + (if soup.hasHeading then mkRat 2 10 else 0)
    let score :=
      match content with
      | none => score
      | some c =>
          if c = "" then score
          else
            let score := score +
              (if soup.htmlLength > 0 ∧
                  (c.length : ℚ) / (soup.htmlLength : ℚ) > mkRat 1 10
               then mkRat 3 10 else 0)
            let score := score + (if soup.hasListTag then mkRat 1 10 else 0)
            score + (if soup.hasImgWithAlt then mkRat 2 10 else 0)
    min score 1

/-- The day-bucket table of `_calculate_freshness_score`
(lines 393–405). -/
def freshnessBucket (days_old : ℤ) : ℚ :=
  if days_old ≤ 1 then 1
  else if days_old ≤ 7 then mkRat 8 10
  else if days_old ≤ 30 then mkRat 6 10
  else if days_old ≤ 90 then mkRat 4 10
  else if days_old ≤ 365 then mkRat 2 10
  else mkRat 1 10

/-- Embeds `HtmlAnalyzer._calculate_freshness_score` (lines 375–405):
`most_recent = last_modified or published_date`, then the day-bucket
of `(now - most_recent).days`. -/
def calculateFreshnessScore (calculate_scores : Bool)
    (published_date last_modified : Option ℤ) (now : ℤ) : ℚ :=
  if ! calculate_scores then 0
  else
    let most_recent :=
      match last_modified with
      | some d => some d
      | none => published_date
    match most_recent with
    | none => 0
    | some d => freshnessBucket (now - d)

/-- The freshness the claim describes: the bucket of the age of
`max(last_modified, published_date)` (the more recent of the two). -/
def claimFreshnessOfMax (published_date last_modified : Option ℤ)
    (now : ℤ) : ℚ :=
  match published_date, last_modified with
  | none, none => 0
  | some p, none => freshnessBucket (now - p)
  | none, some l => freshnessBucket (now - l)
  | some p, some l => freshnessBucket (now - max p l)

/-- Embeds `HtmlAnalyzer._error_result` (lines 466–478). -/
def htmlErrorResult (url error_msg : String) (status : AnalysisStatus)
    (processing_time nowT : ℚ) : PageAnalysis :=
  { url := url, content_type := ContentType.html, status := status,
    error_message := some error_msg, analyzed_at := nowT,
    processing_time := processing_time }

/-- What `httpx.AsyncClient.get` did, as seen by `_fetch_page`. -/
inductive FetchOutcome
  | resp (status_code : ℤ) (contentLength : ℤ)
  | timeoutExc
  | otherExc (msg : String)
  deriving DecidableEq, Repr

/-- Embeds `HtmlAnalyzer._fetch_page` (lines 127–139): `raise_for_status`
raises on a non-2xx code, an oversized body returns `None`, and the
bare `except:` turns **every** exception — including
`httpx.TimeoutException` and `httpx.HTTPStatusError` — into `None`. -/
def fetchPage (max_content_length : ℤ) : FetchOutcome → Option (ℤ × ℤ)
  | FetchOutcome.resp code len =>
      if ¬ (200 ≤ code ∧ code ≤ 299) then none
      else if len > max_content_length then none
      else some (code, len)
  | FetchOutcome.timeoutExc => none
  | FetchOutcome.otherExc _ => none

/-- The fetch stage of `HtmlAnalyzer.analyze` (lines 45–51): when
`_fetch_page` returns `None` the analysis terminates with
`_error_result(url, "Failed to fetch page")`; only a non-`None`
response proceeds.  Because `_fetch_page` swallows every exception,
the `except httpx.TimeoutException` / `except httpx.HTTPStatusError`
handlers of `analyze` (lines 120–123) are unreachable for
fetch-stage failures. -/
def htmlAnalyzeFetchStage (max_content_length : ℤ) (url : String)
    (outcome : FetchOutcome) (proceed : ℤ × ℤ → PageAnalysis)
    (processing_time nowT : ℚ) : PageAnalysis :=
  match fetchPage max_content_length outcome with
  | none =>
      htmlErrorResult url "Failed to fetch page" AnalysisStatus.error
        processing_time nowT
  | some r => proceed r

/-! ### FeedAnalyzer (`analyzers/feed_analyzer.py`)

A feedparser entry is reduced to the fields the scoring code reads.
`contentValue` stands for the `content` list: `none` when the entry
has no `content` key, `some v` when it has one whose first element
carries the value `v` (`entry.get('content', [{}])[0].get('value', '')`). -/

/-- Python truthiness of an optional string (`None` and `''` falsy). -/
def optTruthy (o : Option String) : Bool :=
  match o with
  | some s => s ≠ ""
  | none => false

/-- One feedparser entry as read by `FeedAnalyzer`'s scoring code.
Parsed time structs are embedded as day timestamps
(`_parse_feed_date` turns a present struct into a datetime). -/
structure FeedEntry where
  title : Option String := none
  link : Option String := none
  contentValue : Option String := none
  summary : Option String := none
  description : Option String := none
  published_parsed : Option ℤ := none
  updated_parsed : Option ℤ := none
  deriving DecidableEq, Repr

/-- The feed-level metadata (`parsed_feed.feed`) read by the scoring
code. -/
structure FeedMeta where
  title : Option String := none
  description : Option String := none
  link : Option String := none
  deriving DecidableEq, Repr

/-- A parsed feed document as read by the scoring code. -/
structure ParsedFeed where
  feed : FeedMeta := {}
  entries : List FeedEntry := []
  deriving DecidableEq, Repr

/-- The entry body
`entry.get('content', [{}])[0].get('value', '') or entry.get('summary', '')
or entry.get('description', '')`: the first truthy of the three, else `""`. -/
def entryBody (e : FeedEntry) : String :=
  let c := e.contentValue.getD ""
  if c ≠ "" then c
  else
    let s := e.summary.getD ""
    if s ≠ "" then s else e.description.getD ""

/-- Python `entry_date = updated or published` as used by
`_calculate_feed_freshness_score` and `_is_feed_active`. -/
def entryDate (e : FeedEntry) : Option ℤ :=
  match e.updated_parsed with
  | some d => some d
  | none => e.published_parsed

/-- The weight one entry adds to `recent_entries` in
`_calculate_feed_freshness_score` (lines 463–478): day buckets
≤1→1.0, ≤7→0.8, ≤30→0.4, ≤90→0.2, and nothing otherwise — also
nothing for an entry without a date. -/
def feedEntryFreshnessWeight (e : FeedEntry) (now : ℤ) : ℚ :=
  match entryDate e with
  | none => 0
  | some d =>
      let days_old := now - d
      if days_old ≤ 1 then 1
      else if days_old ≤ 7 then mkRat 8 10
      else if days_old ≤ 30 then mkRat 4 10
      else if days_old ≤ 90 then mkRat 2 10
      else 0

/-- Embeds `FeedAnalyzer._calculate_feed_freshness_score` (lines 455–485). -/
def calculateFeedFreshnessScore (calculate_scores : Bool)
    (entries : List FeedEntry) (now : ℤ) : ℚ :=
  if ! calculate_scores || entries.isEmpty then 0
  else
    let recent_entries :=
      ((entries.take 10).map (fun e => feedEntryFreshnessWeight e now)).sum
    min (recent_entries / ((min entries.length 10 : ℕ) : ℚ)) 1

/-- The feed freshness the claim describes: the HTML day buckets of
§4.2 (≤1→1.0, ≤7→0.8, ≤30→0.6, ≤90→0.4, ≤365→0.2, else 0.1) applied
to each entry's most recent publish/update date, averaged over the
first `min(10, n)` entries. -/
def claimFeedFreshness (entries : List FeedEntry) (now : ℤ) : ℚ :=
  if entries.isEmpty then 0
  else
    ((entries.take 10).map (fun e =>
        match e.published_parsed, e.updated_parsed with
        | none, none => (0 : ℚ)
        | some p, none => freshnessBucket (now - p)
        | none, some u => freshnessBucket (now - u)
        | some p, some u => freshnessBucket (now - max p u))).sum /
      ((min entries.length 10 : ℕ) : ℚ)

/-- Embeds `FeedAnalyzer._calculate_feed_relevance_score` (lines 367–401).
`entry.get('content')` is the truthy test on the content list, i.e.
`contentValue.isSome` here. -/
def calculateFeedRelevanceScore (calculate_scores : Bool)
    (pf : ParsedFeed) : ℚ :=
  if ! calculate_scores then 0
  else
    let score : ℚ := 0
    let score := score + (if optTruthy pf.feed.title then mkRat 2 10 else 0)
    let score := score +
      (if optTruthy pf.feed.description then mkRat 2 10 else 0)
    let score :=
      if pf.entries.isEmpty then score
      else
        let score := score + mkRat 3 10
        let score := score +
          (if pf.entries.length ≥ 5 then mkRat 1 10 else 0)
        let score := score +
          (if pf.entries.length ≥ 10 then mkRat 1 10 else 0)
        let content_entries :=
          ((pf.entries.take 5).filter (fun e =>
            e.contentValue.isSome || optTruthy e.summary ||
              optTruthy e.description)).length
        score + (if content_entries ≥ 3 then mkRat 1 10 else 0)
    min score 1

/-- The per-entry `entry_score` of
`FeedAnalyzer._calculate_feed_quality_score` (lines 423–446). -/
def feedEntryQualityScore (e : FeedEntry) : ℕ :=
  (if optTruthy e.title then 1 else 0) +
    (if (entryBody e).length > 50 then 1 else 0) +
    (if e.published_parsed.isSome || e.updated_parsed.isSome then 1 else 0) +
    (if optTruthy e.link then 1 else 0)

/-- Embeds `FeedAnalyzer._calculate_feed_quality_score` (lines 403–453). -/
def calculateFeedQualityScore (calculate_scores : Bool)
    (pf : ParsedFeed) : ℚ :=
  if ! calculate_scores then 0
  else
    let score : ℚ := 0
    let score := score + (if optLenGT pf.feed.title 5 then mkRat 2 10 else 0)
    let score := score +
      (if optLenGT pf.feed.description 20 then mkRat 2 10 else 0)
    let score := score + (if optTruthy pf.feed.link then mkRat 1 10 else 0)
    let score :=
      if pf.entries.isEmpty then score
      else
        let quality_entries :=
          ((pf.entries.take 10).filter
            (fun e => feedEntryQualityScore e ≥ 3)).length
        score + (quality_entries : ℚ) /
          ((min pf.entries.length 10 : ℕ) : ℚ) * mkRat 5 10
    min score 1

/-- Embeds `FeedAnalyzer._error_result` (lines 498–510). -/
def feedErrorResult (url error_msg : String) (status : AnalysisStatus)
    (processing_time nowT : ℚ) : PageAnalysis :=
  { url := url, content_type := ContentType.rss, status := status,
    error_message := some error_msg, analyzed_at := nowT,
    processing_time := processing_time }

/-! ### ApiAnalyzer (`analyzers/api_analyzer.py`)

JSON scalar values are embedded as `JVal`; a JSON object as an
association list with distinct keys (Python dict).  Composite values
(lists/objects) appear in the source only inside the metadata bag; the
fields that feed `_normalize_item`'s canonical slots are scalars. -/

/-- A scalar JSON value with Python truthiness and `str()`. -/
inductive JVal
  | s (v : String)
  | i (n : ℤ)
  | b (v : Bool)
  | null
  deriving DecidableEq, Repr

/-- Python truthiness of a scalar. -/
def JVal.truthy : JVal → Bool
  | JVal.s v => v ≠ ""
  | JVal.i n => n ≠ 0
  | JVal.b v => v
  | JVal.null => false

/-- Python `str()` of a scalar. -/
def JVal.toStr : JVal → String
  | JVal.s v => v
  | JVal.i n => toString n
  | JVal.b true => "True"
  | JVal.b false => "False"
  | JVal.null => "None"

/-- Python `s[:n]`. -/
def strTake (s : String) (n : ℕ) : String := ⟨s.data.take n⟩

/-- An API item: a Python dict of scalar fields. -/
abbrev ApiItem := List (String × JVal)

/-- The loop `for field in fields: if field in item and item[field]:
… break`: the first field that is present *and truthy* wins; a
present-but-falsy field does not stop the search. -/
def firstTruthyField (item : ApiItem) : List String → Option JVal
  | [] => none
  | f :: rest =>
      match item.lookup f with
      | some v => if v.truthy then some v else firstTruthyField item rest
      | none => firstTruthyField item rest

/-- Ordered synonym lists of `_normalize_item` (lines 298–302). -/
def titleFields : List String := ["title", "name", "headline", "subject", "summary"]

/-- Content-slot synonyms. -/
def contentFields : List String := ["content", "description", "body", "text", "message"]

/-- Url-slot synonyms. -/
def urlFields : List String := ["url", "link", "href", "permalink"]

/-- Date-slot synonyms. -/
def dateFields : List String := ["date", "created_at", "updated_at", "published_at", "timestamp"]

/-- Id-slot synonyms. -/
def idFields : List String := ["id", "uuid", "key", "identifier"]

/-- The normalized record `_normalize_item` builds: the five canonical
slots plus the metadata bag of the remaining non-`None` fields. -/
structure NormalizedRecord where
  title : Option String := none
  content : Option String := none
  url : Option String := none
  date : Option String := none
  id : Option String := none
  metadata : List (String × JVal) := []
  deriving DecidableEq, Repr

/-- The key set of the normalized dict, in insertion order (used by
`_calculate_data_quality`'s consistency check). -/
def NormalizedRecord.keys (r : NormalizedRecord) : List String :=
  (if r.title.isSome then ["title"] else []) ++
    (if r.content.isSome then ["content"] else []) ++
    (if r.url.isSome then ["url"] else []) ++
    (if r.date.isSome then ["date"] else []) ++
    (if r.id.isSome then ["id"] else []) ++
    (if r.metadata ≠ [] then ["metadata"] else [])

/-- Embeds `ApiAnalyzer._normalize_item` (lines 290–346): fill each canonical
slot from the first present truthy synonym (`str()`-converted, title
truncated to 200 and content to 1000 chars), collect every field whose
key is not an assigned slot name and whose value is not `None` into
the metadata bag, and return the record only when a title or a content
was found. -/
def normalizeItem (item : ApiItem) : Option NormalizedRecord :=
  let title := (firstTruthyField item titleFields).map
    (fun v => strTake v.toStr 200)
  let content := (firstTruthyField item contentFields).map
    (fun v => strTake v.toStr 1000)
  let url := (firstTruthyField item urlFields).map JVal.toStr
  let date := (firstTruthyField item dateFields).map JVal.toStr
  let id := (firstTruthyField item idFields).map JVal.toStr
  let assignedKeys : List String :=
    (if title.isSome then ["title"] else []) ++
      (if content.isSome then ["content"] else []) ++
      (if url.isSome then ["url"] else []) ++
      (if date.isSome then ["date"] else []) ++
      (if id.isSome then ["id"] else [])
  let metadata := item.filter
    (fun kv => ! assignedKeys.contains kv.1 && kv.2 ≠ JVal.null)
  if title.isSome || content.isSome then
    some { title := title, content := content, url := url, date := date,
           id := id, metadata := metadata }
  else
    none

/-- The per-record `item_score` of `_calculate_data_quality`
(lines 397–410). -/
def apiItemRichness (r : NormalizedRecord) : ℕ :=
  (if optTruthy r.title then 1 else 0) +
    (if optLenGT r.content 20 then 1 else 0) +
    (if optTruthy r.url then 1 else 0) +
    (if optTruthy r.date then 1 else 0)

/-- Embeds `ApiAnalyzer._calculate_data_quality` (lines 385–426): 0.3 base
for a non-empty extraction, +0.4 × the fraction of the first 10
records with `item_score ≥ 2`, +0.3 × (when at least two records
exist) the fraction of records 2–6 sharing at least half of the first
record's keys, capped at 1.0. -/
def calculateDataQuality (extracted : List NormalizedRecord) : ℚ :=
  match extracted with
  | [] => 0
  | first :: rest =>
      let quality_score : ℚ := mkRat 3 10
      let rich_items :=
        (((first :: rest).take 10).filter
          (fun r => apiItemRichness r ≥ 2)).length
      let quality_score := quality_score +
        (rich_items : ℚ) /
          ((min (first :: rest).length 10 : ℕ) : ℚ) * mkRat 4 10
      let quality_score :=
        if (first :: rest).length > 1 then
          let first_keys := first.keys
          let consistent_items :=
            ((rest.take 5).filter (fun r =>
              ((r.keys.filter (fun k => first_keys.contains k)).length : ℚ) ≥
                (first_keys.length : ℚ) * mkRat 5 10)).length
          quality_score + (consistent_items : ℚ) /
            ((min ((first :: rest).length - 1) 5 : ℕ) : ℚ) * mkRat 3 10
        else quality_score
      min quality_score 1

/-- Embeds `ApiAnalyzer._calculate_api_quality_score` (lines 495–497). -/
def calculateApiQualityScore (data_quality : ℚ) : ℚ :=
  min (data_quality + mkRat 2 10) 1

/-- The weight one record adds to `fresh_items` in
`_calculate_api_freshness_score` (lines 507–527); `parseDate` is the
external tolerant date parser (`dateutil`), `none` embedding a parse
failure. -/
def apiRecordFreshnessWeight (parseDate : String → Option ℤ)
    (r : NormalizedRecord) (now : ℤ) : ℚ :=
  match r.date with
  | none => 0
  | some ds =>
      if ds = "" then 0
      else
        match parseDate ds with
        | none => 0
        | some d =>
            let days_old := now - d
            if days_old ≤ 1 then 1
            else if days_old ≤ 7 then mkRat 8 10
            else if days_old ≤ 30 then mkRat 4 10
            else 0

/-- Embeds `ApiAnalyzer._calculate_api_freshness_score` (lines 499–532). -/
def calculateApiFreshnessScore (parseDate : String → Option ℤ)
    (extracted : List NormalizedRecord) (now : ℤ) : ℚ :=
  if extracted.isEmpty then 0
  else
    let fresh_items :=
      ((extracted.take 10).map
        (fun r => apiRecordFreshnessWeight parseDate r now)).sum
    min (fresh_items / ((min extracted.length 10 : ℕ) : ℚ)) 1

/-- Embeds `ApiAnalyzer._page_error_result` (lines 559–571). -/
def apiPageErrorResult (url error_msg : String) (status : AnalysisStatus)
    (processing_time nowT : ℚ) : PageAnalysis :=
  { url := url, content_type := ContentType.api, status := status,
    error_message := some error_msg, analyzed_at := nowT,
    processing_time := processing_time }

/-! ### AnalysisConfig and option merging (`analysis_types.py`,
`analysis_manager.py`)

`AnalysisConfig` is a pydantic model: constructing one re-validates
every `Field` constraint and raises `ValidationError` on a violation.
The embedding keeps a strict value-type check per field; pydantic's
lax coercions (e.g. numeric strings to ints) are not modelled — they
only enlarge the set of accepted option values, which behave like any
other accepted value. -/

/-- The `AnalysisConfig` model with its pydantic defaults
(`analysis_types.py` lines 144–167). -/
structure AnalysisConfig where
  timeout : ℤ := 30
  max_content_length : ℤ := 1000000
  extract_main_content : Bool := true
  extract_metadata : Bool := true
  extract_links : Bool := false
  extract_images : Bool := false
  discover_feeds : Bool := true
  calculate_scores : Bool := true
  user_agent : String := "NSYC Page Analyzer 1.0"
  follow_redirects : Bool := true
  max_redirects : ℤ := 5
  min_content_length : ℤ := 100
  readability_threshold : ℚ := mkRat 1 2
  detect_language : Bool := true
  feed_discovery_depth : ℤ := 2
  validate_feeds : Bool := true
  deriving DecidableEq, Repr

/-- A raw Python value carried in an options dict. -/
inductive OptValue
  | intVal (n : ℤ)
  | boolVal (b : Bool)
  | strVal (s : String)
  | ratVal (q : ℚ)
  deriving DecidableEq, Repr

/-- The raw `config_dict` of `_merge_config_with_options`
(`self.config.model_dump()` with option values written over it;
values are unchecked until `AnalysisConfig(**config_dict)`). -/
structure ConfigDict where
  timeout : OptValue
  max_content_length : OptValue
  extract_main_content : OptValue
  extract_metadata : OptValue
  extract_links : OptValue
  extract_images : OptValue
  discover_feeds : OptValue
  calculate_scores : OptValue
  user_agent : OptValue
  follow_redirects : OptValue
  max_redirects : OptValue
  min_content_length : OptValue
  readability_threshold : OptValue
  detect_language : OptValue
  feed_discovery_depth : OptValue
  validate_feeds : OptValue
  deriving DecidableEq, Repr

/-- Python `self.config.model_dump()`. -/
def AnalysisConfig.modelDump (c : AnalysisConfig) : ConfigDict :=
  { timeout := OptValue.intVal c.timeout
    max_content_length := OptValue.intVal c.max_content_length
    extract_main_content := OptValue.boolVal c.extract_main_content
    extract_metadata := OptValue.boolVal c.extract_metadata
    extract_links := OptValue.boolVal c.extract_links
    extract_images := OptValue.boolVal c.extract_images
    discover_feeds := OptValue.boolVal c.discover_feeds
    calculate_scores := OptValue.boolVal c.calculate_scores
    user_agent := OptValue.strVal c.user_agent
    follow_redirects := OptValue.boolVal c.follow_redirects
    max_redirects := OptValue.intVal c.max_redirects
    min_content_length := OptValue.intVal c.min_content_length
    readability_threshold := OptValue.ratVal c.readability_threshold
    detect_language := OptValue.boolVal c.detect_language
    feed_discovery_depth := OptValue.intVal c.feed_discovery_depth
    validate_feeds := OptValue.boolVal c.validate_feeds }

/-- The recognized configuration field names
(`hasattr(self.config, key)` for the model's fields). -/
def configFieldNames : List String :=
  ["timeout", "max_content_length", "extract_main_content",
   "extract_metadata", "extract_links", "extract_images",
   "discover_feeds", "calculate_scores", "user_agent",
   "follow_redirects", "max_redirects", "min_content_length",
   "readability_threshold", "detect_language", "feed_discovery_depth",
   "validate_feeds"]

/-- Python `config_dict[key] = value` for a recognized key (unrecognized keys
leave the dict unchanged; `_merge_config_with_options` only assigns
keys passing its `hasattr` test). -/
def ConfigDict.set (d : ConfigDict) (key : String) (v : OptValue) : ConfigDict :=
  if key = "timeout" then { d with timeout := v }
  else if key = "max_content_length" then { d with max_content_length := v }
  else if key = "extract_main_content" then { d with extract_main_content := v }
  else if key = "extract_metadata" then { d with extract_metadata := v }
  else if key = "extract_links" then { d with extract_links := v }
  else if key = "extract_images" then { d with extract_images := v }
  else if key = "discover_feeds" then { d with discover_feeds := v }
  else if key = "calculate_scores" then { d with calculate_scores := v }
  else if key = "user_agent" then { d with user_agent := v }
  else if key = "follow_redirects" then { d with follow_redirects := v }
  else if key = "max_redirects" then { d with max_redirects := v }
  else if key = "min_content_length" then { d with min_content_length := v }
  else if key = "readability_threshold" then { d with readability_threshold := v }
  else if key = "detect_language" then { d with detect_language := v }
  else if key = "feed_discovery_depth" then { d with feed_discovery_depth := v }
  else if key = "validate_feeds" then { d with validate_feeds := v }
  else d

/-- The update loop of `_merge_config_with_options` (lines 297–300). -/
def mergeDict (d : ConfigDict) : List (String × OptValue) → ConfigDict
  | [] => d
  | (key, v) :: rest =>
      mergeDict (if configFieldNames.contains key then d.set key v else d) rest

/-- Read an int-typed field out of the raw dict. -/
def OptValue.asInt (field : String) : OptValue → Except String ℤ
  | OptValue.intVal n => Except.ok n
  | _ => Except.error ("validation error: " ++ field)

/-- Read a bool-typed field out of the raw dict. -/
def OptValue.asBool (field : String) : OptValue → Except String Bool
  | OptValue.boolVal b => Except.ok b
  | _ => Except.error ("validation error: " ++ field)

/-- Read a str-typed field out of the raw dict. -/
def OptValue.asStr (field : String) : OptValue → Except String String
  | OptValue.strVal s => Except.ok s
  | _ => Except.error ("validation error: " ++ field)

/-- Read a float-typed field out of the raw dict. -/
def OptValue.asRat (field : String) : OptValue → Except String ℚ
  | OptValue.ratVal q => Except.ok q
  | _ => Except.error ("validation error: " ++ field)

/-- Embeds `AnalysisConfig(**config_dict)`: pydantic re-validates every field
constraint (`ge`/`le` bounds of `analysis_types.py` lines 146–167) and
raises on a violation. -/
def validateConfig (d : ConfigDict) : Except String AnalysisConfig := do
  let timeout ← d.timeout.asInt "timeout"
  if timeout < 5 ∨ 120 < timeout then
    throw "validation error: timeout"
  let max_content_length ← d.max_content_length.asInt "max_content_length"
  if max_content_length < 10000 then
    throw "validation error: max_content_length"
  let extract_main_content ← d.extract_main_content.asBool "extract_main_content"
  let extract_metadata ← d.extract_metadata.asBool "extract_metadata"
  let extract_links ← d.extract_links.asBool "extract_links"
  let extract_images ← d.extract_images.asBool "extract_images"
  let discover_feeds ← d.discover_feeds.asBool "discover_feeds"
  let calculate_scores ← d.calculate_scores.asBool "calculate_scores"
  let user_agent ← d.user_agent.asStr "user_agent"
  let follow_redirects ← d.follow_redirects.asBool "follow_redirects"
  let max_redirects ← d.max_redirects.asInt "max_redirects"
  if max_redirects < 0 ∨ 10 < max_redirects then
    throw "validation error: max_redirects"
  let min_content_length ← d.min_content_length.asInt "min_content_length"
  if min_content_length < 0 then
    throw "validation error: min_content_length"
  let readability_threshold ← d.readability_threshold.asRat "readability_threshold"
  if readability_threshold < 0 ∨ 1 < readability_threshold then
    throw "validation error: readability_threshold"
  let detect_language ← d.detect_language.asBool "detect_language"
  let feed_discovery_depth ← d.feed_discovery_depth.asInt "feed_discovery_depth"
  if feed_discovery_depth < 1 ∨ 5 < feed_discovery_depth then
    throw "validation error: feed_discovery_depth"
  let validate_feeds ← d.validate_feeds.asBool "validate_feeds"
  pure { timeout := timeout, max_content_length := max_content_length,
         extract_main_content := extract_main_content,
         extract_metadata := extract_metadata,
         extract_links := extract_links, extract_images := extract_images,
         discover_feeds := discover_feeds,
         calculate_scores := calculate_scores, user_agent := user_agent,
         follow_redirects := follow_redirects,
         max_redirects := max_redirects,
         min_content_length := min_content_length,
         readability_threshold := readability_threshold,
         detect_language := detect_language,
         feed_discovery_depth := feed_discovery_depth,
         validate_feeds := validate_feeds }

/-- Embeds `AnalysisManager._merge_config_with_options` (lines 293–302):
overlay recognized option keys on `model_dump()`, then rebuild (and
re-validate) an `AnalysisConfig`. -/
def mergeConfigWithOptions (config : AnalysisConfig)
    (options : List (String × OptValue)) : Except String AnalysisConfig :=
  validateConfig (mergeDict config.modelDump options)

/-! ### `AnalysisManager.analyze_page` (lines 40–84)

The three extractors perform network I/O; they enter the embedding as
functions from the url to either a raised exception's text or their
`PageAnalysis`. -/

/-- The manager's extractors, as delegation targets. -/
structure Extractors where
  feedAnalyze : String → Except String PageAnalysis
  apiAnalyzeAsPage : String → Except String PageAnalysis
  htmlAnalyze : String → Except String PageAnalysis

/-- The routing step of `analyze_page` (lines 63–73). -/
def routeExtractor (ex : Extractors) (url : String)
    (content_type : Option String) : Except String PageAnalysis :=
  let detected := detectContentType url content_type
  if detected = ContentType.rss ∨ detected = ContentType.atom then
    ex.feedAnalyze url
  else if detected = ContentType.api then
    ex.apiAnalyzeAsPage url
  else
    ex.htmlAnalyze url

/-- Embeds `AnalysisManager.analyze_page` (lines 40–84): merge the options
into a request-scoped configuration when any were given
(`_update_analyzer_configs` has body `pass`, so the merged value is
never installed anywhere), route on the detected content type, and
convert any raised exception into an error `PageAnalysis` with
`content_type=unknown`, the exception's text, and the elapsed
`processing_time`. -/
def analyzePage (ex : Extractors) (config : AnalysisConfig) (url : String)
    (content_type : Option String) (options : List (String × OptValue))
    (processing_time nowT : ℚ) : PageAnalysis :=
  let attempt : Except String PageAnalysis := do
    if options ≠ [] then
      let merged ← mergeConfigWithOptions config options
      let _update : Unit := if merged ≠ config then () else ()
      pure ()
    routeExtractor ex url content_type
  match attempt with
  | Except.ok a => a
  | Except.error e =>
      { url := url, content_type := ContentType.unknown,
        status := AnalysisStatus.error, error_message := some e,
        analyzed_at := nowT, processing_time := processing_time }

end PageAnalyzer

namespace PageAnalyzer

/-- An outcome is recorded in `failed_analyses` exactly when it is not
a success. -/
theorem length_filterMap_failedUrl (l : List (String × BatchOutcome)) :
    (l.filterMap outcomeFailedUrl).length =
      (l.filter (fun p => ! outcomeSuccessful p.2)).length := by
  induction l with
  | nil => rfl
  | cons p rest ih =>
      obtain ⟨url, o⟩ := p
      cases o with
      | exc msg =>
          simp [outcomeFailedUrl, outcomeSuccessful, List.filterMap_cons,
            List.filter_cons, ih]
      | analysis a =>
          by_cases h : a.status = AnalysisStatus.success <;>
            simp [outcomeFailedUrl, outcomeSuccessful, List.filterMap_cons,
              List.filter_cons, h, ih]

/-- When every outcome succeeds, all three projections degenerate. -/
theorem allSuccess_projections (l : List (String × BatchOutcome))
    (h : ∀ p ∈ l, outcomeSuccessful p.2 = true) :
    (l.filterMap outcomeResult).length = l.length ∧
      l.filterMap outcomeFailedUrl = [] ∧
      l.filterMap outcomeError = [] := by
  induction l with
  | nil => exact ⟨rfl, rfl, rfl⟩
  | cons p rest ih =>
      have hp : outcomeSuccessful p.2 = true := h p (List.mem_cons_self _ _)
      have hrest := ih (fun q hq => h q (List.mem_cons_of_mem _ hq))
      obtain ⟨url, o⟩ := p
      cases o with
      | exc msg => simp [outcomeSuccessful] at hp
      | analysis a =>
          have ha : a.status = AnalysisStatus.success := by
            simpa [outcomeSuccessful] using hp
          simp [outcomeResult, outcomeFailedUrl, outcomeError,
            List.filterMap_cons, ha, hrest.1, hrest.2.1, hrest.2.2]

/-- C3 (amended): `analyze_batch` partitions the per-URL outcomes —
`results` holds exactly the analyses with `status=success` and
`successful_analyses` is their count; every other outcome increments
`failed_analyses`; a raised exception contributes `"<url>: <text>"`
to `errors` while a non-success analysis contributes
`"<url>: <error_message>"` only when `error_message` is truthy —
present and non-empty — and no error string otherwise; with
all-success outcomes the totals are `N`/`0`/`N`/`[]`. -/
theorem claim_C3_batch_partition
    (outcomes : List (String × BatchOutcome)) (t : ℚ) :
    (analyzeBatchResponse outcomes t).results =
        outcomes.filterMap outcomeResult ∧
    (analyzeBatchResponse outcomes t).successful_analyses =
        ((analyzeBatchResponse outcomes t).results.length : ℤ) ∧
    (analyzeBatchResponse outcomes t).failed_analyses =
        ((outcomes.filter (fun p => ! outcomeSuccessful p.2)).length : ℤ) ∧
    (analyzeBatchResponse outcomes t).errors =
        outcomes.filterMap outcomeError ∧
    ((∀ p ∈ outcomes, outcomeSuccessful p.2 = true) →
      (analyzeBatchResponse outcomes t).successful_analyses =
          (outcomes.length : ℤ) ∧
      (analyzeBatchResponse outcomes t).failed_analyses = 0 ∧
      (analyzeBatchResponse outcomes t).results.length = outcomes.length ∧
      (analyzeBatchResponse outcomes t).errors = []) := by
  refine ⟨?_, ?_, ?_, ?_, ?_⟩
  · simp [analyzeBatchResponse, processResults_eq]
  · simp [analyzeBatchResponse, processResults_eq]
  · simp [analyzeBatchResponse, processResults_eq, length_filterMap_failedUrl]
  · simp [analyzeBatchResponse, processResults_eq]
  · intro h
    obtain ⟨h1, h2, h3⟩ := allSuccess_projections outcomes h
    simp [analyzeBatchResponse, processResults_eq, h1, h2, h3]

/-- Witness for C3: a batch of two all-success outcomes has
`successful_analyses = 2`, `failed_analyses = 0`, two results and no
errors. -/
theorem claim_C3_batch_partition_witness :
    (∀ p ∈ ([("https://a", BatchOutcome.analysis
                 { url := "https://a", content_type := ContentType.html,
                   status := AnalysisStatus.success }),
              ("https://b", BatchOutcome.analysis
                 { url := "https://b", content_type := ContentType.html,
                   status := AnalysisStatus.success })] :
        List (String × BatchOutcome)), outcomeSuccessful p.2 = true) ∧
    (analyzeBatchResponse
        [("https://a", BatchOutcome.analysis
            { url := "https://a", content_type := ContentType.html,
              status := AnalysisStatus.success }),
         ("https://b", BatchOutcome.analysis
            { url := "https://b", content_type := ContentType.html,
              status := AnalysisStatus.success })] 0).successful_analyses = 2 ∧
    (analyzeBatchResponse
        [("https://a", BatchOutcome.analysis
            { url := "https://a", content_type := ContentType.html,
              status := AnalysisStatus.success }),
         ("https://b", BatchOutcome.analysis
            { url := "https://b", content_type := ContentType.html,
              status := AnalysisStatus.success })] 0).errors = [] := by
  refine ⟨by decide, ?_, ?_⟩
  · exact ((claim_C3_batch_partition _ 0).2.2.2.2 (by decide)).1
  · exact ((claim_C3_batch_partition _ 0).2.2.2.2 (by decide)).2.2.2

/-- Counterexample to C3 as stated: a failed analysis whose
`error_message` is absent — and likewise one whose `error_message` is
the empty string, as a falsy value the Python guard also skips —
increments `failed_analyses` but contributes no error string at all;
the claimed `"<url>: <message>"` entry does not exist, so `errors`
stays empty while `failed_analyses = 1`. -/
theorem claim_C3_counterexample :
    (analyzeBatchResponse
        [("https://a", BatchOutcome.analysis
            { url := "https://a", content_type := ContentType.html,
              status := AnalysisStatus.error })] 0).failed_analyses = 1 ∧
    (analyzeBatchResponse
        [("https://a", BatchOutcome.analysis
            { url := "https://a", content_type := ContentType.html,
              status := AnalysisStatus.error })] 0).errors = [] ∧
    ¬ ((analyzeBatchResponse
        [("https://a", BatchOutcome.analysis
            { url := "https://a", content_type := ContentType.html,
              status := AnalysisStatus.error })] 0).errors.length = 1) ∧
    (analyzeBatchResponse
        [("https://b", BatchOutcome.analysis
            { url := "https://b", content_type := ContentType.html,
              status := AnalysisStatus.error,
              error_message := some "" })] 0).failed_analyses = 1 ∧
    (analyzeBatchResponse
        [("https://b", BatchOutcome.analysis
            { url := "https://b", content_type := ContentType.html,
              status := AnalysisStatus.error,
              error_message := some "" })] 0).errors = [] := by
  refine ⟨by decide, by decide, by decide, by decide, by decide⟩

/-- C4: the server's `analyze_batch` tool rejects an empty URL list
and a list of more than 50 URLs with a plain error dictionary — a
rejection, never a wrapped `BatchAnalysisResponse`. -/
theorem claim_C4_batch_validation (urls : List String)
    (delegate : List String → BatchAnalysisResponse) :
    (urls = [] →
        serverAnalyzeBatch urls delegate =
          BatchReply.rejection "No URLs provided") ∧
    (urls.length > 50 →
        serverAnalyzeBatch urls delegate =
          BatchReply.rejection "Too many URLs. Maximum is 50.") ∧
    (∀ msg, serverAnalyzeBatch urls delegate = BatchReply.rejection msg →
        ∀ r, serverAnalyzeBatch urls delegate ≠ BatchReply.response r) := by
  refine ⟨?_, ?_, ?_⟩
  · intro h; subst h; rfl
  · intro h
    have hne : urls ≠ [] := by
      intro he; subst he; simp at h
    simp [serverAnalyzeBatch, hne, h]
  · intro msg hmsg r hr
    rw [hmsg] at hr
    exact BatchReply.noConfusion hr

/-- C6 (code evaluated at the failing inputs): every fetch-stage
failure of `HtmlAnalyzer.analyze` — a timeout, a non-2xx response, an
oversized body — is swallowed by `_fetch_page`'s bare `except:` and
surfaces as the single terminal result `status=error`,
`error_message="Failed to fetch page"`; in particular a timeout does
not produce `status=timeout` and an HTTP 404 does not produce
`error_message="HTTP 404"`, contrary to the claim. -/
theorem claim_C6_fetch_stage_divergence (max_content_length : ℤ)
    (url : String) (proceed : ℤ × ℤ → PageAnalysis) (pt nowT : ℚ) :
    ((htmlAnalyzeFetchStage max_content_length url FetchOutcome.timeoutExc
        proceed pt nowT).status = AnalysisStatus.error ∧
      (htmlAnalyzeFetchStage max_content_length url FetchOutcome.timeoutExc
        proceed pt nowT).error_message = some "Failed to fetch page" ∧
      (htmlAnalyzeFetchStage max_content_length url FetchOutcome.timeoutExc
        proceed pt nowT).status ≠ AnalysisStatus.timeout) ∧
    ((htmlAnalyzeFetchStage max_content_length url (FetchOutcome.resp 404 0)
        proceed pt nowT).status = AnalysisStatus.error ∧
      (htmlAnalyzeFetchStage max_content_length url (FetchOutcome.resp 404 0)
        proceed pt nowT).error_message = some "Failed to fetch page" ∧
      (htmlAnalyzeFetchStage max_content_length url (FetchOutcome.resp 404 0)
        proceed pt nowT).error_message ≠ some "HTTP 404") ∧
    ((htmlAnalyzeFetchStage 1000000 url (FetchOutcome.resp 200 1000001)
        proceed pt nowT).status = AnalysisStatus.error ∧
      (htmlAnalyzeFetchStage 1000000 url (FetchOutcome.resp 200 1000001)
        proceed pt nowT).error_message = some "Failed to fetch page") := by
  refine ⟨⟨rfl, rfl, ?_⟩, ⟨?_, ?_, ?_⟩, ?_, ?_⟩ <;>
    simp [htmlAnalyzeFetchStage, fetchPage, htmlErrorResult]

/-- C7 (amended): the HTML freshness score is the day-bucket of the
age of `last_modified` when it is present, of `published_date`
otherwise (Python's `last_modified or published_date`, not the more
recent of the two), with buckets ≤1→1.0, ≤7→0.8, ≤30→0.6, ≤90→0.4,
≤365→0.2, else 0.1, and 0.0 when neither date is available. -/
theorem claim_C7_html_freshness (published_date last_modified : Option ℤ)
    (now : ℤ) :
    (calculateFreshnessScore true published_date last_modified now =
      (match (match last_modified with
              | some d => some d
              | none => published_date) with
       | none => 0
       | some d => freshnessBucket (now - d))) ∧
    (∀ days : ℤ,
      (days ≤ 1 → freshnessBucket days = 1) ∧
      (1 < days ∧ days ≤ 7 → freshnessBucket days = mkRat 8 10) ∧
      (7 < days ∧ days ≤ 30 → freshnessBucket days = mkRat 6 10) ∧
      (30 < days ∧ days ≤ 90 → freshnessBucket days = mkRat 4 10) ∧
      (90 < days ∧ days ≤ 365 → freshnessBucket days = mkRat 2 10) ∧
      (365 < days → freshnessBucket days = mkRat 1 10)) ∧
    calculateFreshnessScore true none none now = 0 := by
  refine ⟨rfl, ?_, rfl⟩
  intro days
  refine ⟨?_, ?_, ?_, ?_, ?_, ?_⟩
  · intro h; simp only [freshnessBucket]; rw [if_pos h]
  · intro h
    simp only [freshnessBucket]
    rw [if_neg (by omega), if_pos (by omega)]
  · intro h
    simp only [freshnessBucket]
    rw [if_neg (by omega), if_neg (by omega), if_pos (by omega)]
  · intro h
    simp only [freshnessBucket]
    rw [if_neg (by omega), if_neg (by omega), if_neg (by omega),
      if_pos (by omega)]
  · intro h
    simp only [freshnessBucket]
    rw [if_neg (by omega), if_neg (by omega), if_neg (by omega),
      if_neg (by omega), if_pos (by omega)]
  · intro h
    simp only [freshnessBucket]
    rw [if_neg (by omega), if_neg (by omega), if_neg (by omega),
      if_neg (by omega), if_neg (by omega)]

/-- Witness for C7: a page modified 40 days ago scores 0.4, and a page
without any date scores 0. -/
theorem claim_C7_html_freshness_witness :
    (30 < (40 : ℤ) ∧ (40 : ℤ) ≤ 90) ∧
    freshnessBucket 40 = mkRat 4 10 ∧
    calculateFreshnessScore true none none 0 = 0 :=
  ⟨by decide,
    ((claim_C7_html_freshness none (some 0) 40).2.1 40).2.2.2.1 (by decide),
    (claim_C7_html_freshness none none 0).2.2⟩

/-- Counterexample to C7 as stated: with a page published today
(`published_date = now`) but carrying a stale `last_modified` 60 days
old, the code buckets the age of `last_modified` (0.4) while the
claimed `max(last_modified, published_date)` rule would give 1.0. -/
theorem claim_C7_counterexample :
    calculateFreshnessScore true (some 1000) (some 940) 1000 = mkRat 4 10 ∧
    claimFreshnessOfMax (some 1000) (some 940) 1000 = 1 ∧
    calculateFreshnessScore true (some 1000) (some 940) 1000 ≠
      claimFreshnessOfMax (some 1000) (some 940) 1000 :=
  ⟨by decide, by decide, by decide⟩

/-- C8 (amended): the feed freshness score is the sum of per-entry
weights over the first `min(10, n)` entries divided by `min(10, n)`
and capped at 1.0, where an entry is weighted by the age of its
*updated* date when present, else its published date (not the more
recent of the two), with weights ≤1→1.0, ≤7→0.8, ≤30→0.4, ≤90→0.2 and
0 beyond 90 days or without a date — not the §4.2 HTML buckets. -/
theorem claim_C8_feed_freshness (entries : List FeedEntry) (now : ℤ) :
    (calculateFeedFreshnessScore true entries now =
      (if entries.isEmpty then 0
       else
         min (((entries.take 10).map
             (fun e => feedEntryFreshnessWeight e now)).sum /
           ((min entries.length 10 : ℕ) : ℚ)) 1)) ∧
    (∀ e : FeedEntry,
      entryDate e =
        (match e.updated_parsed with
         | some d => some d
         | none => e.published_parsed) ∧
      (entryDate e = none → feedEntryFreshnessWeight e now = 0) ∧
      (∀ d, entryDate e = some d →
        (now - d ≤ 1 → feedEntryFreshnessWeight e now = 1) ∧
        (1 < now - d ∧ now - d ≤ 7 →
          feedEntryFreshnessWeight e now = mkRat 8 10) ∧
        (7 < now - d ∧ now - d ≤ 30 →
          feedEntryFreshnessWeight e now = mkRat 4 10) ∧
        (30 < now - d ∧ now - d ≤ 90 →
          feedEntryFreshnessWeight e now = mkRat 2 10) ∧
        (90 < now - d → feedEntryFreshnessWeight e now = 0))) := by
  constructor
  · cases h : entries.isEmpty <;>
      simp [calculateFeedFreshnessScore, h]
  · intro e
    refine ⟨rfl, ?_, ?_⟩
    · intro h; simp [feedEntryFreshnessWeight, h]
    · intro d hd
      refine ⟨?_, ?_, ?_, ?_, ?_⟩ <;> intro h <;>
        simp only [feedEntryFreshnessWeight, hd]
      · rw [if_pos h]
      · rw [if_neg (by omega), if_pos (by omega)]
      · rw [if_neg (by omega), if_neg (by omega), if_pos (by omega)]
      · rw [if_neg (by omega), if_neg (by omega), if_neg (by omega),
          if_pos (by omega)]
      · rw [if_neg (by omega), if_neg (by omega), if_neg (by omega),
          if_neg (by omega)]

/-- Witness for C8: an entry updated 20 days ago weighs 0.4 (not the
0.6 of the HTML buckets), and a dateless entry weighs 0. -/
theorem claim_C8_feed_freshness_witness :
    entryDate { published_parsed := some 980 } = some 980 ∧
    (7 < (1000 : ℤ) - 980 ∧ (1000 : ℤ) - 980 ≤ 30) ∧
    feedEntryFreshnessWeight { published_parsed := some 980 } 1000 =
      mkRat 4 10 ∧
    feedEntryFreshnessWeight {} 1000 = 0 :=
  ⟨rfl, by decide,
    (((claim_C8_feed_freshness [] 1000).2
        { published_parsed := some 980 }).2.2 980 rfl).2.2.1 (by decide),
    ((claim_C8_feed_freshness [] 1000).2 {}).2.1 rfl⟩

set_option maxRecDepth 4000 in
/-- Counterexample to C8 as stated: a feed with one entry updated 100
days ago but published today (code weight 0, claimed most-recent-date
bucket 1.0) and one entry published 20 days ago (code weight 0.4,
claimed §4.2 bucket 0.6) scores (0 + 0.4)/2 = 0.2, while the claim's
rule gives (1.0 + 0.6)/2 = 0.8. -/
theorem claim_C8_counterexample :
    calculateFeedFreshnessScore true
        [{ published_parsed := some 1000, updated_parsed := some 900 },
         { published_parsed := some 980 }] 1000 = mkRat 2 10 ∧
    claimFeedFreshness
        [{ published_parsed := some 1000, updated_parsed := some 900 },
         { published_parsed := some 980 }] 1000 = mkRat 8 10 ∧
    calculateFeedFreshnessScore true
        [{ published_parsed := some 1000, updated_parsed := some 900 },
         { published_parsed := some 980 }] 1000 ≠
      claimFeedFreshness
        [{ published_parsed := some 1000, updated_parsed := some 900 },
         { published_parsed := some 980 }] 1000 := by
  have h1 : feedEntryFreshnessWeight
      { published_parsed := some 1000, updated_parsed := some 900 } 1000 = 0 := by
    decide
  have h2 : feedEntryFreshnessWeight
      { published_parsed := some 980 } 1000 = mkRat 4 10 := by decide
  have h3 : freshnessBucket (1000 - max 1000 900) = 1 := by decide
  have h4 : freshnessBucket (1000 - 980) = mkRat 6 10 := by decide
  refine ⟨?_, ?_, ?_⟩ <;>
    simp only [calculateFeedFreshnessScore, claimFeedFreshness,
      List.isEmpty_cons, Bool.false_or, Bool.not_true, if_false,
      List.take, List.map, List.sum_cons, List.sum_nil, h1, h2, h3, h4,
      List.length_cons, List.length_nil] <;>
    norm_num [Rat.mkRat_eq_div, min_def]

/-- The truncation `s[:n]` never exceeds `n` characters. -/
theorem strTake_length_le (s : String) (n : ℕ) : (strTake s n).length ≤ n :=
  List.length_take_le n s.data

/-- The claimed example item `{id:"1", name:"Foo", body:"Bar",
link:"https://x/1", created_at:"2024-01-01"}`. -/
def exampleApiItem : ApiItem :=
  [("id", JVal.s "1"), ("name", JVal.s "Foo"), ("body", JVal.s "Bar"),
   ("link", JVal.s "https://x/1"), ("created_at", JVal.s "2024-01-01")]

/-- The normalized record the code produces for `exampleApiItem`. -/
def exampleApiRecord : NormalizedRecord :=
  { title := some "Foo", content := some "Bar", url := some "https://x/1",
    date := some "2024-01-01", id := some "1",
    metadata := [("name", JVal.s "Foo"), ("body", JVal.s "Bar"),
      ("link", JVal.s "https://x/1"), ("created_at", JVal.s "2024-01-01")] }

/-- C9: `_normalize_item` fills each canonical slot from the first
present truthy synonym of its ordered list, truncates the title to 200
and the content to 1000 characters, discards the record exactly when
neither a title nor a content was found, and on the claim's example
item yields title="Foo", content="Bar", url="https://x/1",
date="2024-01-01", id="1". -/
theorem claim_C9_normalize_record :
    (∀ item : ApiItem,
      (normalizeItem item = none ↔
        firstTruthyField item titleFields = none ∧
        firstTruthyField item contentFields = none)) ∧
    (∀ (item : ApiItem) (r : NormalizedRecord), normalizeItem item = some r →
      r.title = (firstTruthyField item titleFields).map
          (fun v => strTake v.toStr 200) ∧
      r.content = (firstTruthyField item contentFields).map
          (fun v => strTake v.toStr 1000) ∧
      r.url = (firstTruthyField item urlFields).map JVal.toStr ∧
      r.date = (firstTruthyField item dateFields).map JVal.toStr ∧
      r.id = (firstTruthyField item idFields).map JVal.toStr ∧
      (∀ t, r.title = some t → t.length ≤ 200) ∧
      (∀ c, r.content = some c → c.length ≤ 1000)) ∧
    normalizeItem exampleApiItem = some exampleApiRecord := by
  refine ⟨?_, ?_, by decide⟩
  · intro item
    cases h1 : firstTruthyField item titleFields <;>
      cases h2 : firstTruthyField item contentFields <;>
        simp [normalizeItem, h1, h2]
  · intro item r h
    simp only [normalizeItem] at h
    split at h
    · cases h
      refine ⟨rfl, rfl, rfl, rfl, rfl, ?_, ?_⟩
      · intro t ht
        cases h1 : firstTruthyField item titleFields with
        | none => simp [h1] at ht
        | some v =>
            simp only [h1, Option.map_some'] at ht
            cases ht
            exact strTake_length_le _ _
      · intro c hc
        cases h2 : firstTruthyField item contentFields with
        | none => simp [h2] at hc
        | some v =>
            simp only [h2, Option.map_some'] at hc
            cases hc
            exact strTake_length_le _ _
    · cases h

/-- Witness for C9: the example record's slots agree with the
synonym-list projections and the truncation bounds hold on it. -/
theorem claim_C9_normalize_record_witness :
    exampleApiRecord.title = (firstTruthyField exampleApiItem titleFields).map
        (fun v => strTake v.toStr 200) ∧
    "Foo".length ≤ 200 :=
  ⟨((claim_C9_normalize_record.2.1 exampleApiItem exampleApiRecord
      (by decide)).1),
    (claim_C9_normalize_record.2.1 exampleApiItem exampleApiRecord
      (by decide)).2.2.2.2.2.1 "Foo" rfl⟩

/-- C5: whenever the extractor selected by the routing step raises
(returns an exception text), `analyze_page` does not propagate it but
returns a `PageAnalysis` with `content_type=unknown`, `status=error`,
`error_message` the exception text and `processing_time` the time
elapsed since entry; the hypothesis on `options` states that the call
reached the delegation (no options, or options that merge cleanly). -/
theorem claim_C5_delegation_exception (ex : Extractors)
    (config : AnalysisConfig) (url : String) (content_type : Option String)
    (options : List (String × OptValue)) (pt nowT : ℚ) (msg : String)
    (hopts : options = [] ∨
      ∃ m, mergeConfigWithOptions config options = Except.ok m)
    (hroute : routeExtractor ex url content_type = Except.error msg) :
    (analyzePage ex config url content_type options pt nowT).url = url ∧
    (analyzePage ex config url content_type options pt nowT).content_type =
      ContentType.unknown ∧
    (analyzePage ex config url content_type options pt nowT).status =
      AnalysisStatus.error ∧
    (analyzePage ex config url content_type options pt nowT).error_message =
      some msg ∧
    (analyzePage ex config url content_type options pt nowT).processing_time =
      pt := by
  rcases hopts with h | ⟨m, hm⟩
  · subst h
    simp [analyzePage, hroute]
  · by_cases ho : options = []
    · subst ho
      simp [analyzePage, hroute]
    · simp [analyzePage, ho, hm, hroute, Bind.bind, Except.bind,
        Pure.pure, Except.pure]

/-- The always-failing extractors used to witness C5. -/
def failingExtractors : Extractors :=
  { feedAnalyze := fun _ => Except.error "boom"
    apiAnalyzeAsPage := fun _ => Except.error "boom"
    htmlAnalyze := fun _ => Except.error "boom" }

/-- Witness for C5: a delegation that raises `"boom"` comes back as an
`unknown`/`error` analysis carrying `"boom"` and the elapsed time. -/
theorem claim_C5_delegation_exception_witness :
    (analyzePage failingExtractors {} "https://x.com/about" none [] 3 7).url =
      "https://x.com/about" ∧
    (analyzePage failingExtractors {} "https://x.com/about" none []
      3 7).content_type = ContentType.unknown ∧
    (analyzePage failingExtractors {} "https://x.com/about" none []
      3 7).status = AnalysisStatus.error ∧
    (analyzePage failingExtractors {} "https://x.com/about" none []
      3 7).error_message = some "boom" ∧
    (analyzePage failingExtractors {} "https://x.com/about" none []
      3 7).processing_time = 3 :=
  claim_C5_delegation_exception failingExtractors {} "https://x.com/about"
    none [] 3 7 "boom" (Or.inl rfl) rfl

/-- C10 (amended): for options whose merged configuration passes
`AnalysisConfig` validation, `analyze_page` with options returns
exactly the analysis it returns without options: the merged
configuration is computed but `_update_analyzer_configs` is `pass`,
so nothing is installed and delegation is unchanged.  (An option
value that fails validation instead aborts delegation, see the
counterexample.) -/
theorem claim_C10_options_noop (ex : Extractors) (config : AnalysisConfig)
    (url : String) (content_type : Option String)
    (options : List (String × OptValue)) (pt nowT : ℚ)
    (h : ∃ m, mergeConfigWithOptions config options = Except.ok m) :
    analyzePage ex config url content_type options pt nowT =
      analyzePage ex config url content_type [] pt nowT := by
  obtain ⟨m, hm⟩ := h
  by_cases ho : options = []
  · subst ho; rfl
  · simp [analyzePage, ho, hm, Bind.bind, Except.bind, Pure.pure,
      Except.pure]

/-- Witness for C10: the request-scoped option `extract_links=True`
merges cleanly and leaves the analysis identical to an option-free
call. -/
theorem claim_C10_options_noop_witness :
    mergeConfigWithOptions {}
        [("extract_links", OptValue.boolVal true)] =
      Except.ok { extract_links := true } ∧
    analyzePage failingExtractors {} "https://x.com/about" none
        [("extract_links", OptValue.boolVal true)] 0 0 =
      analyzePage failingExtractors {} "https://x.com/about" none [] 0 0 :=
  ⟨rfl,
    claim_C10_options_noop failingExtractors {} "https://x.com/about" none
      [("extract_links", OptValue.boolVal true)] 0 0
      ⟨{ extract_links := true }, rfl⟩⟩

/-- The extractors used by the C10 counterexample: HTML analysis
succeeds. -/
def succeedingExtractors : Extractors :=
  { feedAnalyze := fun _ => Except.error "net"
    apiAnalyzeAsPage := fun _ => Except.error "net"
    htmlAnalyze := fun u =>
      Except.ok { url := u, content_type := ContentType.html,
                  status := AnalysisStatus.success } }

/-- Counterexample to C10 as stated: the recognized option
`timeout=3` violates the model constraint `timeout ≥ 5`, so
`AnalysisConfig(**config_dict)` raises inside the merge and
`analyze_page` returns an `unknown`/`error` analysis instead of the
successful delegated one — the option *did* change the result. -/
theorem claim_C10_counterexample :
    (analyzePage succeedingExtractors {} "https://x.com/about" none
        [("timeout", OptValue.intVal 3)] 0 0).status =
      AnalysisStatus.error ∧
    (analyzePage succeedingExtractors {} "https://x.com/about" none
        [] 0 0).status = AnalysisStatus.success ∧
    analyzePage succeedingExtractors {} "https://x.com/about" none
        [("timeout", OptValue.intVal 3)] 0 0 ≠
      analyzePage succeedingExtractors {} "https://x.com/about" none
        [] 0 0 := by
  refine ⟨by decide, by decide, ?_⟩
  intro h
  have h1 : (analyzePage succeedingExtractors {} "https://x.com/about" none
      [("timeout", OptValue.intVal 3)] 0 0).status =
      AnalysisStatus.error := by decide
  rw [h] at h1
  have h2 : (analyzePage succeedingExtractors {} "https://x.com/about" none
      [] 0 0).status = AnalysisStatus.success := by decide
  rw [h2] at h1
  exact AnalysisStatus.noConfusion h1

/-- A nonnegative score capped by `min … 1` lies in `[0,1]`. -/
theorem unit_min (s : ℚ) (hs : 0 ≤ s) : 0 ≤ min s 1 ∧ min s 1 ≤ 1 :=
  ⟨le_min hs zero_le_one, min_le_right _ _⟩

/-- Per-entry feed freshness weights are nonnegative. -/
theorem feedEntryFreshnessWeight_nonneg (e : FeedEntry) (now : ℤ) :
    0 ≤ feedEntryFreshnessWeight e now := by
  unfold feedEntryFreshnessWeight
  cases entryDate e with
  | none => exact le_rfl
  | some d => dsimp only; split_ifs <;> decide

/-- Per-record API freshness weights are nonnegative. -/
theorem apiRecordFreshnessWeight_nonneg (parseDate : String → Option ℤ)
    (r : NormalizedRecord) (now : ℤ) :
    0 ≤ apiRecordFreshnessWeight parseDate r now := by
  unfold apiRecordFreshnessWeight
  cases r.date with
  | none => exact le_rfl
  | some ds =>
      dsimp only
      split_ifs
      · exact le_rfl
      all_goals (cases parseDate ds with
        | none => exact le_rfl
        | some d => dsimp only; split_ifs <;> decide)

/-- C1: every score any extractor computes lies in `[0,1]`: the three
HTML scores, the three feed scores, the API data quality and the three
scores of the API-as-page projection — and every error result carries
the default scores 0, also in `[0,1]`. -/
theorem claim_C1_score_bounds :
    (∀ (cs : Bool) (content title description : Option String),
      0 ≤ calculateRelevanceScore cs content title description ∧
        calculateRelevanceScore cs content title description ≤ 1) ∧
    (∀ (cs : Bool) (content : Option String) (soup : Soup),
      0 ≤ calculateQualityScore cs content soup ∧
        calculateQualityScore cs content soup ≤ 1) ∧
    (∀ (cs : Bool) (pub lm : Option ℤ) (now : ℤ),
      0 ≤ calculateFreshnessScore cs pub lm now ∧
        calculateFreshnessScore cs pub lm now ≤ 1) ∧
    (∀ (cs : Bool) (pf : ParsedFeed),
      0 ≤ calculateFeedRelevanceScore cs pf ∧
        calculateFeedRelevanceScore cs pf ≤ 1) ∧
    (∀ (cs : Bool) (pf : ParsedFeed),
      0 ≤ calculateFeedQualityScore cs pf ∧
        calculateFeedQualityScore cs pf ≤ 1) ∧
    (∀ (cs : Bool) (entries : List FeedEntry) (now : ℤ),
      0 ≤ calculateFeedFreshnessScore cs entries now ∧
        calculateFeedFreshnessScore cs entries now ≤ 1) ∧
    (∀ extracted : List NormalizedRecord,
      0 ≤ calculateDataQuality extracted ∧
        calculateDataQuality extracted ≤ 1) ∧
    (∀ extracted : List NormalizedRecord,
      0 ≤ min (calculateDataQuality extracted) 1 ∧
        min (calculateDataQuality extracted) 1 ≤ 1 ∧
      0 ≤ calculateApiQualityScore (calculateDataQuality extracted) ∧
        calculateApiQualityScore (calculateDataQuality extracted) ≤ 1) ∧
    (∀ (parseDate : String → Option ℤ) (extracted : List NormalizedRecord)
        (now : ℤ),
      0 ≤ calculateApiFreshnessScore parseDate extracted now ∧
        calculateApiFreshnessScore parseDate extracted now ≤ 1) ∧
    (∀ (url msg : String) (st : AnalysisStatus) (pt nt : ℚ),
      (htmlErrorResult url msg st pt nt).relevance_score = 0 ∧
      (htmlErrorResult url msg st pt nt).quality_score = 0 ∧
      (htmlErrorResult url msg st pt nt).freshness_score = 0 ∧
      (feedErrorResult url msg st pt nt).relevance_score = 0 ∧
      (feedErrorResult url msg st pt nt).quality_score = 0 ∧
      (feedErrorResult url msg st pt nt).freshness_score = 0 ∧
      (apiPageErrorResult url msg st pt nt).relevance_score = 0 ∧
      (apiPageErrorResult url msg st pt nt).quality_score = 0 ∧
      (apiPageErrorResult url msg st pt nt).freshness_score = 0 ∧
      (0 : ℚ) ≤ 0 ∧ (0 : ℚ) ≤ 1) := by
  refine ⟨?_, ?_, ?_, ?_, ?_, ?_, ?_, ?_, ?_, ?_⟩
  · intro cs content title description
    rcases content with _ | c <;>
      (unfold calculateRelevanceScore; dsimp only; split_ifs) <;>
      first
        | exact ⟨le_rfl, zero_le_one⟩
        | exact unit_min _ (by norm_num [Rat.mkRat_eq_div])
  · intro cs content soup
    rcases content with _ | c <;>
      (unfold calculateQualityScore; dsimp only; split_ifs) <;>
      first
        | exact ⟨le_rfl, zero_le_one⟩
        | exact unit_min _ (by norm_num [Rat.mkRat_eq_div])
  · intro cs pub lm now
    unfold calculateFreshnessScore
    split_ifs
    · exact ⟨le_rfl, zero_le_one⟩
    · rcases lm with _ | d
      · rcases pub with _ | d
        · exact ⟨le_rfl, zero_le_one⟩
        · dsimp only
          unfold freshnessBucket
          split_ifs <;> constructor <;> decide
      · dsimp only
        unfold freshnessBucket
        split_ifs <;> constructor <;> decide
  · intro cs pf
    unfold calculateFeedRelevanceScore
    dsimp only
    split_ifs <;>
      first
        | exact ⟨le_rfl, zero_le_one⟩
        | exact unit_min _ (by norm_num [Rat.mkRat_eq_div])
  · intro cs pf
    unfold calculateFeedQualityScore
    dsimp only
    split_ifs <;>
      first
        | exact ⟨le_rfl, zero_le_one⟩
        | exact unit_min _ (by positivity)
  · intro cs entries now
    unfold calculateFeedFreshnessScore
    split_ifs
    · exact ⟨le_rfl, zero_le_one⟩
    · refine unit_min _ (div_nonneg ?_ (by positivity))
      exact List.sum_nonneg fun x hx => by
        obtain ⟨e, _, rfl⟩ := List.mem_map.1 hx
        exact feedEntryFreshnessWeight_nonneg e now
  · intro extracted
    unfold calculateDataQuality
    rcases extracted with _ | ⟨first, rest⟩
    · exact ⟨le_rfl, zero_le_one⟩
    · dsimp only
      split_ifs <;>
        exact unit_min _ (by
          simp only [Rat.mkRat_eq_div]
          positivity)
  · intro extracted
    obtain ⟨hdq0, hdq1⟩ :
        0 ≤ calculateDataQuality extracted ∧
          calculateDataQuality extracted ≤ 1 := by
      unfold calculateDataQuality
      rcases extracted with _ | ⟨first, rest⟩
      · exact ⟨le_rfl, zero_le_one⟩
      · dsimp only
        split_ifs <;>
          exact unit_min _ (by
            simp only [Rat.mkRat_eq_div]
            positivity)
    refine ⟨le_min hdq0 zero_le_one, min_le_right _ _, ?_, ?_⟩
    · exact le_min (by positivity) zero_le_one
    · exact min_le_right _ _
  · intro parseDate extracted now
    unfold calculateApiFreshnessScore
    split_ifs
    · exact ⟨le_rfl, zero_le_one⟩
    · refine unit_min _ (div_nonneg ?_ (by positivity))
      exact List.sum_nonneg fun x hx => by
        obtain ⟨r, _, rfl⟩ := List.mem_map.1 hx
        exact apiRecordFreshnessWeight_nonneg parseDate r now
  · intro url msg st pt nt
    exact ⟨rfl, rfl, rfl, rfl, rfl, rfl, rfl, rfl, rfl, le_rfl, zero_le_one⟩

/-- Witness for C4: the empty list and a 51-element list are both
rejected with the exact messages of the claim. -/
theorem claim_C4_batch_validation_witness :
    serverAnalyzeBatch []
        (fun _ => { total_requested := 0, successful_analyses := 0,
                    failed_analyses := 0 }) =
      BatchReply.rejection "No URLs provided" ∧
    serverAnalyzeBatch (List.replicate 51 "https://x.com")
        (fun _ => { total_requested := 0, successful_analyses := 0,
                    failed_analyses := 0 }) =
      BatchReply.rejection "Too many URLs. Maximum is 50." :=
  ⟨(claim_C4_batch_validation _ _).1 rfl,
    (claim_C4_batch_validation _ _).2.1 (by decide)⟩

end PageAnalyzer
